import Mathlib

/-!
Verification of the kuberang cluster-checking workflow
(`src/pkg/kuberang/mainworkflow.go`) against its natural-language
specification.

The workflow engine is embedded shallowly.  The cluster control plane is
reached only through `kubectl` invocations; every such invocation is
modelled by its structured response (`KubeOutput`).  Because the workflow
is strictly sequential, an execution is fully determined by the responses
the cluster gives to each call site, so the external world is an
environment (`Env`) holding one response (or one response stream, for
retried / polled calls) per call site of `mainworkflow.go`.  The model
computes the value returned by `CheckKubernetes` together with a trace of
the externally visible actions (creation requests, deletion requests,
probe executions), which is what the claims about call counts and
teardown refer to.
-/

deriving instance DecidableEq for Except

namespace Kuberang

/-- Modelled from the spec (section 6, Cluster Accessor contract): the
structured response of one `kubectl` invocation.  The adapter that parses
these fields (`KubeOutput` and its methods `PodIPs`, `FirstPodName`,
`ServiceCluserIP`, `NamespaceStatus`, `ObservedReplicaCount`, `NodeCount`)
is not under `src/`; fields mirror the methods used by
`mainworkflow.go`. -/
structure KubeOutput where
  Success : Bool
  CombinedOut : String
  podIPs : List String
  firstPodName : String
  serviceClusterIP : String
  namespaceStatus : String
  observedReplicaCount : Int
  nodeCount : Int
deriving DecidableEq

/-- Zero value of `KubeOutput`, as for an uninitialised `var ko KubeOutput`. -/
def kubeZero : KubeOutput :=
  { Success := false, CombinedOut := "", podIPs := [], firstPodName := ""
    serviceClusterIP := "", namespaceStatus := "", observedReplicaCount := 0
    nodeCount := 0 }

/-- A `KubeOutput` reporting success and nothing else. -/
def kubeOk : KubeOutput := { kubeZero with Success := true }

/-- Retry of a stateful attempt.  The Go retry closures mutate captured
variables, so an attempt is modelled as a state transformer returning the
new state and the boolean the closure returns.  The first argument of the
attempt is the (0-based) index of the call, which selects the cluster
response for that call.  `retryState a i k s` performs up to `k` calls
starting at call index `i` from state `s`, stopping at the first call that
returns `true`. -/
def retryState {σ : Type} (attempt : Nat → σ → σ × Bool) : Nat → Nat → σ → σ × Bool
  | _, 0, s => (s, false)
  | i, Nat.succ k, s =>
    let r := attempt i s
    if r.snd then (r.fst, true) else retryState attempt (i + 1) k r.fst

/-- Modelled from the spec (section 4.1, Retry Engine): the source file
defining `retry` is not under `src/`.  `retry maxAttempts probe` calls
`probe` up to `maxAttempts` times in sequence, returns `true` on the
first `true` result and `false` if all attempts return `false`.  The
probe is indexed by the call number so that successive calls may give
different results. -/
def retry (maxAttempts : Nat) (probe : Nat → Bool) : Bool :=
  (retryState (fun i _ => ((), probe i)) 0 maxAttempts ()).snd

/-- Number of calls to the probe made by `retry` when given `k` attempts
starting at call index `i`. -/
def retryCalls (probe : Nat → Bool) : Nat → Nat → Nat
  | _, 0 => 0
  | i, Nat.succ k => 1 + (if probe i then 0 else retryCalls probe (i + 1) k)

/-- Fixed name prefix of all run-created resources
(`runPrefix = "kuberang-"`, mainworkflow.go line 17). -/
def runPrefixStr : String := "kuberang-"

/-- Fixed probe-client deployment name (mainworkflow.go line 18). -/
def bbDeploymentName : String := runPrefixStr ++ "busybox"

/-- Fixed probe-target deployment name (mainworkflow.go line 19). -/
def ngDeploymentName : String := runPrefixStr ++ "nginx"

/-- Decimal digit character, `'0'` for 0 through `'9'` for 9. -/
def digitChar (d : Nat) : Char := Char.ofNat (48 + d)

/-- Big-endian decimal digit characters of `n`, written with explicit
fuel so that it is structurally recursive; `natReprAux fuel n` is the
rendering of `n` provided `n ≤ fuel`. -/
def natReprAux : Nat → Nat → List Char
  | 0, _ => []
  | fuel + 1, n => if n = 0 then [] else natReprAux fuel (n / 10) ++ [digitChar (n % 10)]

/-- Decimal digit characters of `n`, with `"0"` for zero as `%d` prints. -/
def natReprChars (n : Nat) : List Char :=
  if n = 0 then ['0'] else natReprAux n n

/-- Decimal rendering of a natural number, modelling the `%d` verb of
`fmt.Sprintf`. -/
def natRepr (n : Nat) : String := String.mk (natReprChars n)

/-- Service name of a run started when the clock reads `now` (nanoseconds
since the epoch): `fmt.Sprintf("%s-%d", runPrefix+"nginx", time.Now().UnixNano())`
(mainworkflow.go lines 393-395). -/
def nginxServiceName (now : Nat) : String :=
  (runPrefixStr ++ "nginx") ++ "-" ++ natRepr now

/-- Deployment readiness timeout in time units (seconds in the source:
`deploymentTimeout = 300 * time.Second`, polled once per second). -/
def deploymentTimeout : Nat := 300

/-- Externally visible actions of a run, in order.  Creation and deletion
events record the cluster-changing requests issued; gather and check
events record that the corresponding phase step executed. -/
inductive Event where
  | removeExistingCall
  | createBusybox
  | createNginx
  | exposeService (name : String)
  | gatherPods
  | gatherService
  | gatherName
  | check1Run
  | check2Run
  | check3Run (ip : String)
  | check4Run (printedOk : Bool)
  | check5Run (ip : String)
  | check6Run
  | check7Run
  | deleteService (name : String) (ok : Bool)
  | deleteBusybox (ok : Bool)
  | deleteNginx (ok : Bool)
deriving DecidableEq

/-- Event classifier: the three workload- or service-creation requests
(`kubectl run` twice and `kubectl expose`, mainworkflow.go lines 224, 235,
243). -/
def Event.isCreation : Event → Bool
  | Event.createBusybox => true
  | Event.createNginx => true
  | Event.exposeService _ => true
  | _ => false

/-- Event classifier: execution of one of the seven probe checks. -/
def Event.isProbeCheck : Event → Bool
  | Event.check1Run => true
  | Event.check2Run => true
  | Event.check3Run _ => true
  | Event.check4Run _ => true
  | Event.check5Run _ => true
  | Event.check6Run => true
  | Event.check7Run => true
  | _ => false

/-- Event classifier: execution of one of the three information-gathering
retrievals. -/
def Event.isGather : Event → Bool
  | Event.gatherPods => true
  | Event.gatherService => true
  | Event.gatherName => true
  | _ => false

/-- Ambient configuration (package `config`, not under `src/`): the
optional image registry URL and the optional target namespace. -/
structure Config where
  registryURL : String
  namespaceCfg : String

/-- Cluster responses to the three tolerated checks (4, 5 and 6).  They
are grouped so that independence of the run result from them is a
projection fact. -/
structure ToleratedEnv where
  check4Resp : KubeOutput
  check5Resp : String → Bool
  check6Resp : Bool

/-- Cluster responses for one run, one field per call site of
`mainworkflow.go`.  Retried or polled call sites get a stream indexed by
the call number. -/
structure Env where
  versionResp : KubeOutput
  removeExistingResp : KubeOutput
  namespaceResp : KubeOutput
  servicePrecheckResp : KubeOutput
  bbPrecheckResp : KubeOutput
  ngPrecheckResp : KubeOutput
  runBusyboxResp : KubeOutput
  nodesResp : KubeOutput
  runNginxResp : KubeOutput
  exposeResp : KubeOutput
  bbPollResp : Nat → KubeOutput
  ngPollResp : Nat → KubeOutput
  getPodsResp : Nat → KubeOutput
  getServiceResp : Nat → KubeOutput
  getBusyboxResp : Nat → KubeOutput
  check1Resp : Nat → KubeOutput
  check2Resp : Nat → KubeOutput
  check3Resp : String → Nat → KubeOutput
  check7Resp : Nat → KubeOutput
  tolerated : ToleratedEnv
  deleteServiceResp : KubeOutput
  deleteBBResp : KubeOutput
  deleteNGResp : KubeOutput

/-- Embeds `precheckKubectl` (mainworkflow.go lines 268-275). -/
def precheckKubectl (env : Env) : Bool := env.versionResp.Success

/-- Embeds `precheckNamespace` (mainworkflow.go lines 306-322): passes
when no namespace is configured, otherwise requires the namespace query
to succeed with status `"Active"`. -/
def precheckNamespace (cfg : Config) (env : Env) : Bool :=
  if cfg.namespaceCfg == "" then true
  else env.namespaceResp.Success && (env.namespaceResp.namespaceStatus == "Active")

/-- Embeds `precheckServices` (mainworkflow.go lines 277-285): passes
when the service of this run's name is not already present. -/
def precheckServices (env : Env) : Bool := !env.servicePrecheckResp.Success

/-- Embeds `precheckDeployments` (mainworkflow.go lines 287-304): passes
when neither fixed deployment name is already present. -/
def precheckDeployments (env : Env) : Bool :=
  !env.bbPrecheckResp.Success && !env.ngPrecheckResp.Success

/-- Embeds `checkPreconditions` (mainworkflow.go lines 254-266); all
three prechecks run and the results are conjoined. -/
def checkPreconditions (cfg : Config) (env : Env) : Bool :=
  precheckNamespace cfg env && precheckServices env && precheckDeployments env

/-- Embeds `checkDeployments` (mainworkflow.go lines 324-339): each
deployment query must succeed with the observed replica count equal to
the desired count. -/
def checkDeployments (busyboxCount nginxCount : Int) (bb ng : KubeOutput) : Bool :=
  (bb.Success && (bb.observedReplicaCount == busyboxCount)) &&
    (ng.Success && (ng.observedReplicaCount == nginxCount))

/-- Readiness polling loop of `waitForDeployments` (mainworkflow.go lines
341-352) with the clock made explicit: `t` is the elapsed time in units,
the remaining fuel is `deploymentTimeout - t`, one check happens per unit
and the sleep advances the clock by one unit.  Returns the result
together with the elapsed time at return. -/
def waitFrom (check : Nat → Bool) : Nat → Nat → Bool × Nat
  | t, 0 => (false, t)
  | t, Nat.succ fuel => if check t then (true, t) else waitFrom check (t + 1) fuel

/-- Embeds `waitForDeployments` (mainworkflow.go lines 341-352). -/
def waitForDeployments (busyboxCount nginxCount : Int) (env : Env) : Bool × Nat :=
  waitFrom
    (fun t => checkDeployments busyboxCount nginxCount (env.bbPollResp t) (env.ngPollResp t))
    0 deploymentTimeout

/-- Embeds `deployTestWorkloads` (mainworkflow.go lines 221-252): issue
the busybox run request, the nginx run request for one replica per node,
and the expose request, failing fast on a rejected request, then wait for
readiness.  The trace records the creation requests issued. -/
def deployTestWorkloads (env : Env) (ngServiceName : String) : Bool × List Event :=
  if env.runBusyboxResp.Success then
    let nginxCount := env.nodesResp.nodeCount
    if env.runNginxResp.Success then
      if env.exposeResp.Success then
        ((waitForDeployments 1 nginxCount env).fst,
          [Event.createBusybox, Event.createNginx, Event.exposeService ngServiceName])
      else (false, [Event.createBusybox, Event.createNginx, Event.exposeService ngServiceName])
    else (false, [Event.createBusybox, Event.createNginx])
  else (false, [Event.createBusybox])

/-- One attempt of the pod-IP retrieval closure (mainworkflow.go lines
64-80).  The state is the pair of the captured variables `podIPs` and
`ko`; `ko` is assigned on every call, `podIPs` only when the call
succeeded, and the closure returns `true` when the list is non-empty with
no blank entry. -/
def grabPodIPsAttempt (resp : Nat → KubeOutput) (i : Nat) (st : List String × KubeOutput) :
    (List String × KubeOutput) × Bool :=
  let ko := resp i
  if ko.Success then
    ((ko.podIPs, ko), !ko.podIPs.isEmpty && ko.podIPs.all (fun ip => ip != ""))
  else ((st.fst, ko), false)

/-- One attempt of the service-IP retrieval closure (mainworkflow.go
lines 91-99). -/
def grabServiceIPAttempt (resp : Nat → KubeOutput) (i : Nat) (st : String × KubeOutput) :
    (String × KubeOutput) × Bool :=
  let ko := resp i
  if ko.Success then ((ko.serviceClusterIP, ko), ko.serviceClusterIP != "")
  else ((st.fst, ko), false)

/-- One attempt of the busybox pod-name retrieval closure
(mainworkflow.go lines 110-118). -/
def grabPodNameAttempt (resp : Nat → KubeOutput) (i : Nat) (st : String × KubeOutput) :
    (String × KubeOutput) × Bool :=
  let ko := resp i
  if ko.Success then ((ko.firstPodName, ko), ko.firstPodName != "")
  else ((st.fst, ko), false)

/-- Outcome of the information-gathering phase: for each of the three
retrievals, whether its retry succeeded, and the final value of the
captured variable. -/
structure GatherResult where
  gotPods : Bool
  podIPs : List String
  gotService : Bool
  serviceIP : String
  gotName : Bool
  busyboxPodName : String
deriving DecidableEq

/-- Embeds the information-gathering phase of `CheckKubernetes`
(mainworkflow.go lines 61-125): three retrievals, each via `retry 3`,
with the shared `ko` variable threaded through. -/
def gatherPhase (env : Env) : GatherResult :=
  let p := retryState (grabPodIPsAttempt env.getPodsResp) 0 3 ([], kubeZero)
  let s := retryState (grabServiceIPAttempt env.getServiceResp) 0 3 ("", p.fst.snd)
  let b := retryState (grabPodNameAttempt env.getBusyboxResp) 0 3 ("", s.fst.snd)
  { gotPods := p.snd, podIPs := p.fst.fst
    gotService := s.snd, serviceIP := s.fst.fst
    gotName := b.snd, busyboxPodName := b.fst.fst }

/-- Value of the `success` flag at the gate of mainworkflow.go line 128:
`success` starts `true` and each failed retrieval sets it `false`. -/
def GatherResult.ok (g : GatherResult) : Bool := g.gotPods && g.gotService && g.gotName

/-- Check 1 (mainworkflow.go lines 136-139): reach the service by cluster
IP from the probe client, `retry 3`. -/
def check1Pass (env : Env) : Bool := retry 3 (fun i => (env.check1Resp i).Success)

/-- Check 2 (mainworkflow.go lines 149-152): reach the service by DNS
name from the probe client, `retry 6`. -/
def check2Pass (env : Env) : Bool := retry 6 (fun i => (env.check2Resp i).Success)

/-- Check 3 for one pod IP (mainworkflow.go lines 163-166): reach the pod
directly from the probe client, `retry 3`. -/
def check3Pass (env : Env) (ip : String) : Bool :=
  retry 3 (fun i => (env.check3Resp ip i).Success)

/-- Check 7 (mainworkflow.go lines 203-206): ping the kubernetes service
from the probe client, `retry 3`. -/
def check7Pass (env : Env) : Bool := retry 3 (fun i => (env.check7Resp i).Success)

/-- Conjunction of the required checks: 1, 2, 3 for every pod IP, and 7.
This is the value of `success` after the probe sequence when it was
`true` on entry, since only the required checks assign it
(mainworkflow.go lines 145, 158, 172, 212). -/
def requiredChecksPass (env : Env) (podIPs : List String) : Bool :=
  check1Pass env && check2Pass env && podIPs.all (check3Pass env) && check7Pass env

/-- Embeds the probe sequence of `CheckKubernetes` (mainworkflow.go lines
132-218), entered with `success = true`.  Checks run in order 1 to 7;
checks 4, 5 and 6 only print (check 4 prints OK when the pod name is
empty or the call succeeded, line 177).  The returned value is `nil`
exactly when `success` is still `true` at line 215. -/
def probePhase (env : Env) (podIPs : List String) (serviceIP busyboxPodName : String) :
    Except String Unit × List Event :=
  let c4 := (busyboxPodName == "") || env.tolerated.check4Resp.Success
  let success := requiredChecksPass env podIPs
  ((if success then Except.ok () else Except.error "One or more required steps failed"),
    [Event.check1Run, Event.check2Run] ++ podIPs.map Event.check3Run
      ++ [Event.check4Run c4] ++ podIPs.map Event.check5Run
      ++ [Event.check6Run, Event.check7Run])

/-- Body of `CheckKubernetes` after the deferred-teardown registration
(mainworkflow.go lines 56-218): deploy, gather, gate, probe. -/
def runBody (env : Env) (ngServiceName : String) : Except String Unit × List Event :=
  let d := deployTestWorkloads env ngServiceName
  if d.fst then
    let g := gatherPhase env
    let tr := d.snd ++ [Event.gatherPods, Event.gatherService, Event.gatherName]
    if g.ok then
      let p := probePhase env g.podIPs g.serviceIP g.busyboxPodName
      (p.fst, tr ++ p.snd)
    else (Except.error "Failed to get required information from cluster", tr)
  else (Except.error "Failed to deploy test workloads", d.snd)

/-- Embeds `powerDown` (mainworkflow.go lines 354-376): the three
deletions are attempted unconditionally and independently; each event
records whether the cluster accepted that deletion. -/
def powerDown (env : Env) (ngServiceName : String) : List Event :=
  [Event.deleteService ngServiceName env.deleteServiceResp.Success,
    Event.deleteBusybox env.deleteBBResp.Success,
    Event.deleteNginx env.deleteNGResp.Success]

/-- Embeds `CheckKubernetes` (mainworkflow.go lines 26-219).  `now` is
the clock reading used for the service name (line 28).  The deferred
`powerDown` (lines 52-54) is modelled by appending its events to the
trace of every body outcome when `skipCleanup` is false. -/
def CheckKubernetes (cfg : Config) (now : Nat) (env : Env) (skipCleanup : Bool) :
    Except String Unit × List Event :=
  let ngServiceName := nginxServiceName now
  if precheckKubectl env then
    if env.removeExistingResp.Success then
      if checkPreconditions cfg env then
        let b := runBody env ngServiceName
        (b.fst,
          Event.removeExistingCall :: b.snd
            ++ (if skipCleanup then [] else powerDown env ngServiceName))
      else (Except.error "Pre-conditions failed", [Event.removeExistingCall])
    else (Except.error "Failure removing existing kuberang deployments",
      [Event.removeExistingCall])
  else (Except.error "Kubectl must be configured on this machine before running kuberang", [])

/-- State of a well-behaved cluster, used to interpret a run against
actual cluster contents: the names of the deployments and services that
exist. -/
structure Cluster where
  deployments : List String
  services : List String
deriving DecidableEq

/-- Responses of a well-behaved cluster in state `c`: `kubectl version`
succeeds; the initial `kubectl delete --ignore-not-found` succeeds and
removes the two fixed deployment names and this run's service name; a
`get` of a deployment or service succeeds exactly when it is present
after that removal; creation requests are accepted; one node; polls
report one ready replica; the gather queries return a pod IP, a service
IP and a pod name; every probe call succeeds. -/
def clusterEnv (now : Nat) (c : Cluster) : Env :=
  let remaining : List String :=
    c.deployments.filter (fun d => d != bbDeploymentName && d != ngDeploymentName)
  let remainingSvcs : List String := c.services.filter (fun s => s != nginxServiceName now)
  { versionResp := kubeOk
    removeExistingResp := kubeOk
    namespaceResp := { kubeOk with namespaceStatus := "Active" }
    servicePrecheckResp := if remainingSvcs.contains (nginxServiceName now) then kubeOk else kubeZero
    bbPrecheckResp := if remaining.contains bbDeploymentName then kubeOk else kubeZero
    ngPrecheckResp := if remaining.contains ngDeploymentName then kubeOk else kubeZero
    runBusyboxResp := kubeOk
    nodesResp := { kubeOk with nodeCount := 1 }
    runNginxResp := kubeOk
    exposeResp := kubeOk
    bbPollResp := fun _ => { kubeOk with observedReplicaCount := 1 }
    ngPollResp := fun _ => { kubeOk with observedReplicaCount := 1 }
    getPodsResp := fun _ => { kubeOk with podIPs := ["10.0.0.1"] }
    getServiceResp := fun _ => { kubeOk with serviceClusterIP := "10.0.5.5" }
    getBusyboxResp := fun _ => { kubeOk with firstPodName := "kuberang-busybox-abc" }
    check1Resp := fun _ => kubeOk
    check2Resp := fun _ => kubeOk
    check3Resp := fun _ _ => kubeOk
    check7Resp := fun _ => kubeOk
    tolerated := { check4Resp := kubeOk, check5Resp := fun _ => true, check6Resp := true }
    deleteServiceResp := kubeOk
    deleteBBResp := kubeOk
    deleteNGResp := kubeOk }

/-- Environment of a run against an initially empty well-behaved cluster:
every precondition holds, deployment succeeds and becomes ready at the
first poll, the gather phase succeeds, and every probe succeeds. -/
def envAllOk : Env := clusterEnv 0 (Cluster.mk [] [])

end Kuberang

namespace Kuberang

/-! Lemmas about the retry engine. -/

theorem retryState_unit_true_iff (probe : Nat → Bool) :
    ∀ k i, (retryState (fun j _ => ((), probe j)) i k ()).snd = true ↔
      ∃ d, d < k ∧ probe (i + d) = true := by
  intro k
  induction k with
  | zero =>
    intro i
    simp [retryState]
  | succ k ih =>
    intro i
    by_cases h : probe i = true
    · simp only [retryState, h, if_true]
      exact ⟨fun _ => ⟨0, Nat.succ_pos k, by simpa using h⟩, fun _ => by trivial⟩
    · have h' : probe i = false := by simpa using h
      simp only [retryState, h', Bool.false_eq_true, if_false]
      rw [ih (i + 1)]
      constructor
      · rintro ⟨d, hd, hp⟩
        refine ⟨d + 1, by omega, ?_⟩
        rw [show i + (d + 1) = i + 1 + d from by omega]
        exact hp
      · rintro ⟨d, hd, hp⟩
        cases d with
        | zero => exact absurd (by simpa using hp) h
        | succ d =>
          refine ⟨d, by omega, ?_⟩
          rw [show i + 1 + d = i + (d + 1) from by omega]
          exact hp

theorem retry_true_iff (n : Nat) (probe : Nat → Bool) :
    retry n probe = true ↔ ∃ i, i < n ∧ probe i = true := by
  have h := retryState_unit_true_iff probe n 0
  simpa [retry] using h

theorem retryCalls_le (probe : Nat → Bool) : ∀ k i, retryCalls probe i k ≤ k := by
  intro k
  induction k with
  | zero => intro i; simp [retryCalls]
  | succ k ih =>
    intro i
    simp only [retryCalls]
    by_cases h : probe i = true
    · simp [h]
    · have h' : probe i = false := by simpa using h
      simp only [h', Bool.false_eq_true, if_false]
      have := ih (i + 1)
      omega

theorem retryCalls_first_true (probe : Nat → Bool) :
    ∀ d k i, d < k → probe (i + d) = true → (∀ e, e < d → probe (i + e) = false) →
      retryCalls probe i k = d + 1 := by
  intro d
  induction d with
  | zero =>
    intro k i hk hp _
    cases k with
    | zero => omega
    | succ k => simp [retryCalls, show probe i = true by simpa using hp]
  | succ d ih =>
    intro k i hk hp hprev
    cases k with
    | zero => omega
    | succ k =>
      have h0 : probe i = false := by simpa using hprev 0 (Nat.succ_pos d)
      simp only [retryCalls, h0, Bool.false_eq_true, if_false]
      have hp' : probe (i + 1 + d) = true := by
        rw [show i + 1 + d = i + (d + 1) from by omega]
        exact hp
      have hprev' : ∀ e, e < d → probe (i + 1 + e) = false := by
        intro e he
        rw [show i + 1 + e = i + (e + 1) from by omega]
        exact hprev (e + 1) (by omega)
      have := ih k (i + 1) (by omega) hp' hprev'
      omega

/-- Claim C2: for every number of attempts and every probe, the retry
engine returns true exactly when one of the first n calls returns true,
it makes at most n calls, it stops at the first successful call (making
exactly i+1 calls when call i is the first success), and it returns false
when all n calls fail. -/
theorem claim_c2 (n : Nat) (probe : Nat → Bool) :
    (retry n probe = true ↔ ∃ i, i < n ∧ probe i = true)
    ∧ retryCalls probe 0 n ≤ n
    ∧ (∀ i, i < n → probe i = true → (∀ j, j < i → probe j = false) →
        retryCalls probe 0 n = i + 1)
    ∧ ((∀ i, i < n → probe i = false) → retry n probe = false) := by
  refine ⟨retry_true_iff n probe, retryCalls_le probe n 0, ?_, ?_⟩
  · intro i hi hp hprev
    exact retryCalls_first_true probe i n 0 hi (by simpa using hp)
      (fun e he => by simpa using hprev e he)
  · intro hall
    by_contra h
    have : retry n probe = true := by
      cases hr : retry n probe with
      | false => exact absurd hr h
      | true => rfl
    obtain ⟨i, hi, hp⟩ := (retry_true_iff n probe).mp this
    rw [hall i hi] at hp
    exact Bool.false_ne_true hp

/-- Witness for claim C2: a probe that fails once then succeeds on the
second call makes the retry succeed with exactly two calls, and a probe
that always fails makes it return false. -/
theorem claim_c2_witness :
    retry 3 (fun i => decide (i = 1)) = true
    ∧ retryCalls (fun i => decide (i = 1)) 0 3 = 2
    ∧ retry 2 (fun _ => false) = false :=
  ⟨(claim_c2 3 (fun i => decide (i = 1))).1.mpr ⟨1, by decide, by decide⟩,
    (claim_c2 3 (fun i => decide (i = 1))).2.2.1 1 (by decide) (by decide)
      (by decide),
    (claim_c2 2 (fun _ => false)).2.2.2 (fun i _ => rfl)⟩

/-! Lemmas about the readiness polling loop. -/

theorem waitFrom_all_false (check : Nat → Bool) :
    ∀ fuel t, (∀ d, d < fuel → check (t + d) = false) →
      waitFrom check t fuel = (false, t + fuel) := by
  intro fuel
  induction fuel with
  | zero => intro t _; simp [waitFrom]
  | succ fuel ih =>
    intro t h
    have h0 : check t = false := by simpa using h 0 (Nat.succ_pos _)
    simp only [waitFrom, h0, Bool.false_eq_true, if_false]
    rw [ih (t + 1) (fun d hd => by
      rw [show t + 1 + d = t + (d + 1) from by omega]
      exact h (d + 1) (by omega))]
    rw [show t + 1 + fuel = t + (fuel + 1) from by omega]

theorem waitFrom_finds (check : Nat → Bool) :
    ∀ fuel t d, d < fuel → check (t + d) = true →
      (waitFrom check t fuel).fst = true ∧ (waitFrom check t fuel).snd < t + fuel := by
  intro fuel
  induction fuel with
  | zero => intro t d hd _; omega
  | succ fuel ih =>
    intro t d hd hc
    by_cases h0 : check t = true
    · simp only [waitFrom, h0, if_true]
      exact ⟨by trivial, by omega⟩
    · have h0' : check t = false := by simpa using h0
      simp only [waitFrom, h0', Bool.false_eq_true, if_false]
      cases d with
      | zero => exact absurd (by simpa using hc) h0
      | succ d =>
        have hc' : check (t + 1 + d) = true := by
          rw [show t + 1 + d = t + (d + 1) from by omega]
          exact hc
        have := ih (t + 1) d (by omega) hc'
        exact ⟨this.1, by omega⟩

/-- Claim C8: the readiness poller checks the two observed replica counts
against the desired counts once per time unit; when some poll before the
300-unit timeout reports both counts matching, it returns true before the
timeout elapses, and when no poll within the window ever matches, it
returns false exactly when the full 300-unit window has elapsed. -/
theorem claim_c8 (busyboxCount nginxCount : Int) (env : Env) :
    ((∃ t, t < deploymentTimeout ∧
        checkDeployments busyboxCount nginxCount (env.bbPollResp t) (env.ngPollResp t) = true) →
      (waitForDeployments busyboxCount nginxCount env).fst = true
        ∧ (waitForDeployments busyboxCount nginxCount env).snd < deploymentTimeout)
    ∧ ((∀ t, t < deploymentTimeout →
        checkDeployments busyboxCount nginxCount (env.bbPollResp t) (env.ngPollResp t) = false) →
      waitForDeployments busyboxCount nginxCount env = (false, deploymentTimeout)) := by
  constructor
  · rintro ⟨t, ht, hc⟩
    have := waitFrom_finds
      (fun u => checkDeployments busyboxCount nginxCount (env.bbPollResp u) (env.ngPollResp u))
      deploymentTimeout 0 t ht (by simpa using hc)
    simpa [waitForDeployments] using this
  · intro hall
    have := waitFrom_all_false
      (fun u => checkDeployments busyboxCount nginxCount (env.bbPollResp u) (env.ngPollResp u))
      deploymentTimeout 0 (fun d hd => by simpa using hall d hd)
    simpa [waitForDeployments] using this

/-- Witness for claim C8: against the all-ok environment the poller
returns true before the timeout, and against an environment whose probe
client deployment never reports a replica the poller runs the full
300-unit window and returns false. -/
theorem claim_c8_witness :
    ((waitForDeployments 1 1 envAllOk).fst = true
      ∧ (waitForDeployments 1 1 envAllOk).snd < deploymentTimeout)
    ∧ waitForDeployments 1 1 { envAllOk with bbPollResp := fun _ => kubeZero }
        = (false, deploymentTimeout) :=
  ⟨(claim_c8 1 1 envAllOk).1 ⟨0, by decide, by decide⟩,
    (claim_c8 1 1 { envAllOk with bbPollResp := fun _ => kubeZero }).2
      (fun t _ => by simp [checkDeployments, kubeZero])⟩


/-! Lemmas about resource names. -/

theorem digitChar_inj : ∀ d, d < 10 → ∀ e, e < 10 → digitChar d = digitChar e → d = e := by
  decide

theorem natReprAux_eq_digits :
    ∀ n fuel, n ≤ fuel → natReprAux fuel n = (Nat.digits 10 n).reverse.map digitChar := by
  intro n
  induction n using Nat.strong_induction_on with
  | _ n ih =>
    intro fuel hf
    cases fuel with
    | zero =>
      have hn : n = 0 := by omega
      subst hn
      simp [natReprAux]
    | succ fuel =>
      by_cases h0 : n = 0
      · subst h0
        simp [natReprAux]
      · have hd : Nat.digits 10 n = n % 10 :: Nat.digits 10 (n / 10) :=
          Nat.digits_def' (by norm_num) (Nat.pos_of_ne_zero h0)
        have hlt : n / 10 < n := Nat.div_lt_self (Nat.pos_of_ne_zero h0) (by norm_num)
        rw [show natReprAux (fuel + 1) n
            = if n = 0 then [] else natReprAux fuel (n / 10) ++ [digitChar (n % 10)] from rfl]
        simp only [h0, if_false]
        rw [ih (n / 10) hlt fuel (by omega), hd]
        simp

theorem map_digitChar_cancel :
    ∀ l1 l2 : List Nat, (∀ d ∈ l1, d < 10) → (∀ d ∈ l2, d < 10) →
      l1.map digitChar = l2.map digitChar → l1 = l2 := by
  intro l1
  induction l1 with
  | nil =>
    intro l2 _ _ h
    cases l2 with
    | nil => rfl
    | cons b l2 => simp at h
  | cons a l ih =>
    intro l2 h1 h2 h
    cases l2 with
    | nil => simp at h
    | cons b l2 =>
      simp only [List.map_cons, List.cons.injEq] at h
      have ha : a < 10 := h1 a (List.mem_cons_self a l)
      have hb : b < 10 := h2 b (List.mem_cons_self b l2)
      rw [digitChar_inj a ha b hb h.1,
        ih l2 (fun d hd => h1 d (List.mem_cons_of_mem a hd))
          (fun d hd => h2 d (List.mem_cons_of_mem b hd)) h.2]

theorem natReprChars_zero_ne (m : Nat) (hm : m ≠ 0) : natReprChars 0 ≠ natReprChars m := by
  intro h
  have hrw : natReprChars m = (Nat.digits 10 m).reverse.map digitChar := by
    rw [natReprChars, if_neg hm, natReprAux_eq_digits m m (Nat.le_refl m)]
  rw [natReprChars, if_pos rfl, hrw] at h
  have hlen : (Nat.digits 10 m).length = 1 := by
    have := congrArg List.length h
    simpa using this.symm
  obtain ⟨d, hdig⟩ := List.length_eq_one.mp hlen
  rw [hdig] at h
  simp only [List.reverse_singleton, List.map_cons, List.map_nil, List.cons.injEq] at h
  have hd10 : d < 10 := Nat.digits_lt_base (by norm_num) (hdig ▸ List.mem_singleton_self d)
  have hd0 : d = 0 := by
    have h0 : digitChar 0 = Char.ofNat 48 := rfl
    exact digitChar_inj d hd10 0 (by norm_num) (by rw [h0]; exact h.1.symm)
  have hm0 : m = 0 := by
    have hof := Nat.ofDigits_digits 10 m
    rw [hdig, hd0] at hof
    simpa [Nat.ofDigits] using hof.symm
  exact hm hm0

theorem natReprChars_inj : ∀ n m : Nat, natReprChars n = natReprChars m → n = m := by
  intro n m h
  by_cases hn : n = 0
  · by_cases hm : m = 0
    · rw [hn, hm]
    · subst hn
      exact absurd h (natReprChars_zero_ne m hm)
  · by_cases hm : m = 0
    · subst hm
      exact absurd h.symm (natReprChars_zero_ne n hn)
    · rw [natReprChars, if_neg hn, natReprAux_eq_digits n n (Nat.le_refl n),
        natReprChars, if_neg hm, natReprAux_eq_digits m m (Nat.le_refl m)] at h
      rw [List.map_reverse, List.map_reverse] at h
      have hmap : List.map digitChar (Nat.digits 10 n) = List.map digitChar (Nat.digits 10 m) :=
        List.reverse_injective h
      have hdig := map_digitChar_cancel _ _
        (fun d hd => Nat.digits_lt_base (by norm_num) hd)
        (fun d hd => Nat.digits_lt_base (by norm_num) hd) hmap
      exact Nat.digits_inj_iff.mp hdig

theorem nginxServiceName_inj :
    ∀ t1 t2 : Nat, nginxServiceName t1 = nginxServiceName t2 → t1 = t2 := by
  intro t1 t2 h
  have hdata := congrArg String.data h
  simp only [nginxServiceName, String.data_append] at hdata
  exact natReprChars_inj t1 t2 (List.append_cancel_left hdata)

/-- Claim C9: the probe-client and probe-target deployment names are the
fixed prefixed identifiers, identical on every run, while the service
name is the fixed prefixed identifier followed by a dash and the decimal
rendering of the nanosecond clock reading, so two runs started at
different clock readings always get distinct service names. -/
theorem claim_c9 :
    bbDeploymentName = runPrefixStr ++ "busybox"
    ∧ ngDeploymentName = runPrefixStr ++ "nginx"
    ∧ (∀ now : Nat, nginxServiceName now = (runPrefixStr ++ "nginx") ++ "-" ++ natRepr now)
    ∧ (∀ t1 t2 : Nat, t1 ≠ t2 → nginxServiceName t1 ≠ nginxServiceName t2) := by
  refine ⟨rfl, rfl, fun _ => rfl, ?_⟩
  intro t1 t2 hne habs
  exact hne (nginxServiceName_inj t1 t2 habs)

/-- Witness for claim C9: two runs one nanosecond apart (hence within the
same second) get distinct service names. -/
theorem claim_c9_witness :
    (1700000000000000000 : Nat) ≠ 1700000000000000001
    ∧ nginxServiceName 1700000000000000000 ≠ nginxServiceName 1700000000000000001 :=
  ⟨by decide, claim_c9.2.2.2 1700000000000000000 1700000000000000001 (by decide)⟩


/-! Lemmas about the workflow phases. -/

theorem retryState_post {σ : Type} (attempt : Nat → σ → σ × Bool) (P : σ → Prop)
    (h : ∀ j s, (attempt j s).snd = true → P (attempt j s).fst) :
    ∀ k i s, (retryState attempt i k s).snd = true → P (retryState attempt i k s).fst := by
  intro k
  induction k with
  | zero =>
    intro i s hfalse
    simp [retryState] at hfalse
  | succ k ih =>
    intro i s
    simp only [retryState]
    by_cases hc : (attempt i s).snd = true
    · simp only [hc, if_true]
      intro _
      exact h i s hc
    · have hc' : (attempt i s).snd = false := by simpa using hc
      simp only [hc', Bool.false_eq_true, if_false]
      exact ih (i + 1) (attempt i s).fst

theorem grabPodIPsAttempt_post (resp : Nat → KubeOutput) (j : Nat)
    (s : List String × KubeOutput) (h : (grabPodIPsAttempt resp j s).snd = true) :
    (grabPodIPsAttempt resp j s).fst.fst ≠ []
      ∧ ∀ ip ∈ (grabPodIPsAttempt resp j s).fst.fst, ip ≠ "" := by
  by_cases hsucc : (resp j).Success = true
  · simp only [grabPodIPsAttempt, hsucc, if_true] at h ⊢
    have hboth := h
    rw [Bool.and_eq_true] at hboth
    constructor
    · intro hnil
      rw [hnil] at hboth
      simp at hboth
    · intro ip hip
      have := List.all_eq_true.mp hboth.2 ip hip
      simpa using this
  · have hsucc' : (resp j).Success = false := by simpa using hsucc
    simp [grabPodIPsAttempt, hsucc'] at h

theorem grabServiceIPAttempt_post (resp : Nat → KubeOutput) (j : Nat)
    (s : String × KubeOutput) (h : (grabServiceIPAttempt resp j s).snd = true) :
    (grabServiceIPAttempt resp j s).fst.fst ≠ "" := by
  by_cases hsucc : (resp j).Success = true
  · simp only [grabServiceIPAttempt, hsucc, if_true] at h ⊢
    simpa using h
  · have hsucc' : (resp j).Success = false := by simpa using hsucc
    simp [grabServiceIPAttempt, hsucc'] at h

theorem grabPodNameAttempt_post (resp : Nat → KubeOutput) (j : Nat)
    (s : String × KubeOutput) (h : (grabPodNameAttempt resp j s).snd = true) :
    (grabPodNameAttempt resp j s).fst.fst ≠ "" := by
  by_cases hsucc : (resp j).Success = true
  · simp only [grabPodNameAttempt, hsucc, if_true] at h ⊢
    simpa using h
  · have hsucc' : (resp j).Success = false := by simpa using hsucc
    simp [grabPodNameAttempt, hsucc'] at h

theorem gatherPhase_pods (env : Env) (h : (gatherPhase env).gotPods = true) :
    (gatherPhase env).podIPs ≠ [] ∧ ∀ ip ∈ (gatherPhase env).podIPs, ip ≠ "" :=
  retryState_post (grabPodIPsAttempt env.getPodsResp)
    (fun st => st.fst ≠ [] ∧ ∀ ip ∈ st.fst, ip ≠ "")
    (fun j s hj => grabPodIPsAttempt_post env.getPodsResp j s hj)
    3 0 ([], kubeZero) h

theorem gatherPhase_serviceIP (env : Env) (h : (gatherPhase env).gotService = true) :
    (gatherPhase env).serviceIP ≠ "" :=
  retryState_post (grabServiceIPAttempt env.getServiceResp) (fun st => st.fst ≠ "")
    (fun j s hj => grabServiceIPAttempt_post env.getServiceResp j s hj)
    3 0 ("", (retryState (grabPodIPsAttempt env.getPodsResp) 0 3 ([], kubeZero)).fst.snd) h

theorem gatherPhase_podName (env : Env) (h : (gatherPhase env).gotName = true) :
    (gatherPhase env).busyboxPodName ≠ "" :=
  retryState_post (grabPodNameAttempt env.getBusyboxResp) (fun st => st.fst ≠ "")
    (fun j s hj => grabPodNameAttempt_post env.getBusyboxResp j s hj)
    3 0 ("", (retryState (grabServiceIPAttempt env.getServiceResp) 0 3
      ("", (retryState (grabPodIPsAttempt env.getPodsResp) 0 3 ([], kubeZero)).fst.snd)).fst.snd) h

theorem deployTestWorkloads_events (env : Env) (name : String) :
    ∀ e ∈ (deployTestWorkloads env name).snd,
      e.isCreation = true ∧ e.isProbeCheck = false ∧ e.isGather = false := by
  intro e he
  simp only [deployTestWorkloads] at he
  by_cases h1 : env.runBusyboxResp.Success = true
  · simp only [h1, if_true] at he
    by_cases h2 : env.runNginxResp.Success = true
    · simp only [h2, if_true] at he
      by_cases h3 : env.exposeResp.Success = true
      · simp only [h3, if_true] at he
        simp only [List.mem_cons, List.not_mem_nil, or_false] at he
        rcases he with rfl | rfl | rfl <;> exact ⟨rfl, rfl, rfl⟩
      · have h3' : env.exposeResp.Success = false := by simpa using h3
        simp only [h3', Bool.false_eq_true, if_false] at he
        simp only [List.mem_cons, List.not_mem_nil, or_false] at he
        rcases he with rfl | rfl | rfl <;> exact ⟨rfl, rfl, rfl⟩
    · have h2' : env.runNginxResp.Success = false := by simpa using h2
      simp only [h2', Bool.false_eq_true, if_false] at he
      simp only [List.mem_cons, List.not_mem_nil, or_false] at he
      rcases he with rfl | rfl <;> exact ⟨rfl, rfl, rfl⟩
  · have h1' : env.runBusyboxResp.Success = false := by simpa using h1
    simp only [h1', Bool.false_eq_true, if_false] at he
    simp only [List.mem_cons, List.not_mem_nil, or_false] at he
    rcases he with rfl <;> exact ⟨rfl, rfl, rfl⟩

theorem powerDown_events (env : Env) (name : String) :
    ∀ e ∈ powerDown env name,
      e.isCreation = false ∧ e.isProbeCheck = false ∧ e.isGather = false := by
  intro e he
  simp only [powerDown, List.mem_cons, List.not_mem_nil, or_false] at he
  rcases he with rfl | rfl | rfl <;> exact ⟨rfl, rfl, rfl⟩


theorem checkKubernetes_result_probe (cfg : Config) (now : Nat) (env : Env) (skip : Bool)
    (hk : precheckKubectl env = true)
    (hr : env.removeExistingResp.Success = true)
    (hp : checkPreconditions cfg env = true)
    (hd : (deployTestWorkloads env (nginxServiceName now)).fst = true)
    (hg : (gatherPhase env).ok = true) :
    (CheckKubernetes cfg now env skip).fst
      = if requiredChecksPass env (gatherPhase env).podIPs then Except.ok ()
        else Except.error "One or more required steps failed" := by
  simp only [CheckKubernetes, runBody, probePhase, hk, hr, hp, hd, hg, if_true]

theorem checkKubernetes_trace_probe (cfg : Config) (now : Nat) (env : Env) (skip : Bool)
    (hk : precheckKubectl env = true)
    (hr : env.removeExistingResp.Success = true)
    (hp : checkPreconditions cfg env = true)
    (hd : (deployTestWorkloads env (nginxServiceName now)).fst = true)
    (hg : (gatherPhase env).ok = true) :
    (CheckKubernetes cfg now env skip).snd
      = Event.removeExistingCall
          :: (((deployTestWorkloads env (nginxServiceName now)).snd
                ++ [Event.gatherPods, Event.gatherService, Event.gatherName])
              ++ (probePhase env (gatherPhase env).podIPs (gatherPhase env).serviceIP
                  (gatherPhase env).busyboxPodName).snd)
            ++ (if skip then [] else powerDown env (nginxServiceName now)) := by
  simp only [CheckKubernetes, runBody, hk, hr, hp, hd, hg, if_true]

theorem checkKubernetes_probe_mem (cfg : Config) (now : Nat) (env : Env) (skip : Bool)
    (hk : precheckKubectl env = true)
    (hr : env.removeExistingResp.Success = true)
    (hp : checkPreconditions cfg env = true)
    (hd : (deployTestWorkloads env (nginxServiceName now)).fst = true)
    (hg : (gatherPhase env).ok = true) :
    ∀ e ∈ (probePhase env (gatherPhase env).podIPs (gatherPhase env).serviceIP
        (gatherPhase env).busyboxPodName).snd,
      e ∈ (CheckKubernetes cfg now env skip).snd := by
  intro e he
  rw [checkKubernetes_trace_probe cfg now env skip hk hr hp hd hg]
  exact List.mem_cons_of_mem _ (List.mem_append_left _ (List.mem_append_right _ he))

theorem checkKubernetes_teardown_mem (cfg : Config) (now : Nat) (env : Env)
    (hk : precheckKubectl env = true)
    (hr : env.removeExistingResp.Success = true)
    (hp : checkPreconditions cfg env = true) :
    ∀ e ∈ powerDown env (nginxServiceName now), e ∈ (CheckKubernetes cfg now env false).snd := by
  intro e he
  simp only [CheckKubernetes, hk, hr, hp, if_true]
  exact List.mem_cons_of_mem _ (List.mem_append_right _ (by simpa using he))

/-- Claim C1: once the run reaches the probe sequence (preconditions,
deployment and information gathering all succeeded), `CheckKubernetes`
returns nil exactly when checks 1, 2, 3 for every gathered pod IP, and 7
all pass, and the returned value is unchanged under any replacement of
the responses to the tolerated checks 4, 5 and 6. -/
theorem claim_c1 (cfg : Config) (now : Nat) (env : Env) (skip : Bool)
    (hk : precheckKubectl env = true)
    (hr : env.removeExistingResp.Success = true)
    (hp : checkPreconditions cfg env = true)
    (hd : (deployTestWorkloads env (nginxServiceName now)).fst = true)
    (hg : (gatherPhase env).ok = true) :
    ((CheckKubernetes cfg now env skip).fst
      = if requiredChecksPass env (gatherPhase env).podIPs then Except.ok ()
        else Except.error "One or more required steps failed")
    ∧ ∀ t : ToleratedEnv,
        (CheckKubernetes cfg now { env with tolerated := t } skip).fst
          = (CheckKubernetes cfg now env skip).fst := by
  refine ⟨checkKubernetes_result_probe cfg now env skip hk hr hp hd hg, ?_⟩
  intro t
  exact (checkKubernetes_result_probe cfg now { env with tolerated := t } skip hk hr hp hd hg).trans
    (checkKubernetes_result_probe cfg now env skip hk hr hp hd hg).symm

/-- Witness for claim C1: a run in which all three tolerated checks fail
while every required check passes still returns nil. -/
theorem claim_c1_witness :
    ({ envAllOk with
        tolerated := ToleratedEnv.mk kubeZero (fun _ => false) false } : Env).tolerated.check4Resp.Success
        = false
    ∧ (CheckKubernetes (Config.mk "" "") 0
        { envAllOk with tolerated := ToleratedEnv.mk kubeZero (fun _ => false) false } false).fst
      = Except.ok () := by
  refine ⟨rfl, ?_⟩
  rw [(claim_c1 (Config.mk "" "") 0
    { envAllOk with tolerated := ToleratedEnv.mk kubeZero (fun _ => false) false } false
    (by decide) (by decide) (by decide) (by decide) (by decide)).1]
  decide

/-- Claim C6: in every run that passes the precondition stage with
teardown not suppressed, whatever happens afterwards, the teardown
requests for the run's service, the probe-client deployment and the
probe-target deployment are all issued, each recorded with its own
outcome so that one failing deletion does not remove the others from the
trace. -/
theorem claim_c6 (cfg : Config) (now : Nat) (env : Env)
    (hk : precheckKubectl env = true)
    (hr : env.removeExistingResp.Success = true)
    (hp : checkPreconditions cfg env = true) :
    Event.deleteService (nginxServiceName now) env.deleteServiceResp.Success
        ∈ (CheckKubernetes cfg now env false).snd
    ∧ Event.deleteBusybox env.deleteBBResp.Success ∈ (CheckKubernetes cfg now env false).snd
    ∧ Event.deleteNginx env.deleteNGResp.Success ∈ (CheckKubernetes cfg now env false).snd := by
  refine ⟨?_, ?_, ?_⟩ <;>
    apply checkKubernetes_teardown_mem cfg now env hk hr hp <;>
    simp [powerDown]

/-- Witness for claim C6: a run that fails at the probe sequence (check 1
never succeeds) and one where the service deletion itself is rejected
still issue all teardown requests. -/
theorem claim_c6_witness :
    (CheckKubernetes (Config.mk "" "") 0
        { envAllOk with check1Resp := fun _ => kubeZero, deleteServiceResp := kubeZero } false).fst
      = Except.error "One or more required steps failed"
    ∧ Event.deleteService (nginxServiceName 0) false
        ∈ (CheckKubernetes (Config.mk "" "") 0
          { envAllOk with check1Resp := fun _ => kubeZero, deleteServiceResp := kubeZero } false).snd
    ∧ Event.deleteBusybox true
        ∈ (CheckKubernetes (Config.mk "" "") 0
          { envAllOk with check1Resp := fun _ => kubeZero, deleteServiceResp := kubeZero } false).snd
    ∧ Event.deleteNginx true
        ∈ (CheckKubernetes (Config.mk "" "") 0
          { envAllOk with check1Resp := fun _ => kubeZero, deleteServiceResp := kubeZero } false).snd := by
  refine ⟨by decide, ?_, ?_, ?_⟩
  · exact (claim_c6 (Config.mk "" "") 0
      { envAllOk with check1Resp := fun _ => kubeZero, deleteServiceResp := kubeZero }
      (by decide) (by decide) (by decide)).1
  · exact (claim_c6 (Config.mk "" "") 0
      { envAllOk with check1Resp := fun _ => kubeZero, deleteServiceResp := kubeZero }
      (by decide) (by decide) (by decide)).2.1
  · exact (claim_c6 (Config.mk "" "") 0
      { envAllOk with check1Resp := fun _ => kubeZero, deleteServiceResp := kubeZero }
      (by decide) (by decide) (by decide)).2.2

/-- Claim C10: whenever the probe sequence is entered, the gathered
probe-client pod name, service cluster IP and every pod IP are non-empty,
so the special branch of check 4 for an empty pod name never decides its
outcome: the recorded check-4 outcome is exactly the cluster's response
to the egress call. -/
theorem claim_c10 (cfg : Config) (now : Nat) (env : Env) (skip : Bool)
    (hk : precheckKubectl env = true)
    (hr : env.removeExistingResp.Success = true)
    (hp : checkPreconditions cfg env = true)
    (hd : (deployTestWorkloads env (nginxServiceName now)).fst = true)
    (hg : (gatherPhase env).ok = true) :
    (gatherPhase env).busyboxPodName ≠ ""
    ∧ (gatherPhase env).serviceIP ≠ ""
    ∧ (gatherPhase env).podIPs ≠ []
    ∧ (∀ ip ∈ (gatherPhase env).podIPs, ip ≠ "")
    ∧ Event.check4Run env.tolerated.check4Resp.Success ∈ (CheckKubernetes cfg now env skip).snd := by
  have h3 : (gatherPhase env).gotPods = true ∧ (gatherPhase env).gotService = true
      ∧ (gatherPhase env).gotName = true := by
    have hh := hg
    simp only [GatherResult.ok, Bool.and_eq_true] at hh
    exact ⟨hh.1.1, hh.1.2, hh.2⟩
  have hname := gatherPhase_podName env h3.2.2
  have hsvc := gatherPhase_serviceIP env h3.2.1
  have hpods := gatherPhase_pods env h3.1
  refine ⟨hname, hsvc, hpods.1, hpods.2, ?_⟩
  have hbeq : ((gatherPhase env).busyboxPodName == "") = false := by
    rw [beq_eq_false_iff_ne]
    exact hname
  have hmem := checkKubernetes_probe_mem cfg now env skip hk hr hp hd hg
    (Event.check4Run (((gatherPhase env).busyboxPodName == "")
      || env.tolerated.check4Resp.Success))
    (List.mem_append_left _ (List.mem_append_left _
      (List.mem_append_right _ (List.mem_singleton_self _))))
  rw [hbeq, Bool.false_or] at hmem
  exact hmem

/-- Witness for claim C10: in the all-ok run the gathered pod name is
non-empty and the recorded check-4 outcome is the cluster's response. -/
theorem claim_c10_witness :
    (gatherPhase envAllOk).busyboxPodName ≠ ""
    ∧ Event.check4Run true ∈ (CheckKubernetes (Config.mk "" "") 0 envAllOk false).snd :=
  ⟨(claim_c10 (Config.mk "" "") 0 envAllOk false
      (by decide) (by decide) (by decide) (by decide) (by decide)).1,
    (claim_c10 (Config.mk "" "") 0 envAllOk false
      (by decide) (by decide) (by decide) (by decide) (by decide)).2.2.2.2⟩


/-- Claim C4: when the run reaches the information-gathering phase but at
least one of the three retrievals (pod IPs, service IP, probe-client pod
name, each tried with `retry 3`) still fails, no probe check executes,
`CheckKubernetes` returns the information-gathering error, and with
teardown not suppressed all three teardown requests are still issued. -/
theorem claim_c4 (cfg : Config) (now : Nat) (env : Env) (skip : Bool)
    (hk : precheckKubectl env = true)
    (hr : env.removeExistingResp.Success = true)
    (hp : checkPreconditions cfg env = true)
    (hd : (deployTestWorkloads env (nginxServiceName now)).fst = true)
    (hg : (gatherPhase env).ok = false) :
    (CheckKubernetes cfg now env skip).fst
      = Except.error "Failed to get required information from cluster"
    ∧ (∀ e ∈ (CheckKubernetes cfg now env skip).snd, e.isProbeCheck = false)
    ∧ (skip = false →
        Event.deleteService (nginxServiceName now) env.deleteServiceResp.Success
            ∈ (CheckKubernetes cfg now env skip).snd
        ∧ Event.deleteBusybox env.deleteBBResp.Success ∈ (CheckKubernetes cfg now env skip).snd
        ∧ Event.deleteNginx env.deleteNGResp.Success ∈ (CheckKubernetes cfg now env skip).snd) := by
  have htrace : (CheckKubernetes cfg now env skip).snd
      = Event.removeExistingCall
          :: ((deployTestWorkloads env (nginxServiceName now)).snd
            ++ [Event.gatherPods, Event.gatherService, Event.gatherName])
          ++ (if skip then [] else powerDown env (nginxServiceName now)) := by
    simp only [CheckKubernetes, runBody, hk, hr, hp, hd, hg, if_true, Bool.false_eq_true, if_false]
  refine ⟨?_, ?_, ?_⟩
  · simp only [CheckKubernetes, runBody, hk, hr, hp, hd, hg, if_true, Bool.false_eq_true, if_false]
  · intro e he
    rw [htrace] at he
    rcases List.mem_cons.mp he with rfl | he2
    · rfl
    rcases List.mem_append.mp he2 with he3 | hpd
    · rcases List.mem_append.mp he3 with hdep | hgath
      · exact (deployTestWorkloads_events env (nginxServiceName now) e hdep).2.1
      · simp only [List.mem_cons, List.not_mem_nil, or_false] at hgath
        rcases hgath with rfl | rfl | rfl <;> rfl
    · cases skip with
      | true => simp at hpd
      | false =>
        simp only [Bool.false_eq_true, if_false] at hpd
        exact (powerDown_events env (nginxServiceName now) e hpd).2.1
  · intro hskip
    subst hskip
    refine ⟨?_, ?_, ?_⟩ <;>
      apply checkKubernetes_teardown_mem cfg now env hk hr hp <;>
      simp [powerDown]

/-- Witness for claim C4: a run in which the pod-IP retrieval never
succeeds returns the information-gathering error, runs no probe check,
and still issues the probe-client teardown request. -/
theorem claim_c4_witness :
    (CheckKubernetes (Config.mk "" "") 0 { envAllOk with getPodsResp := fun _ => kubeZero } false).fst
      = Except.error "Failed to get required information from cluster"
    ∧ (∀ e ∈ (CheckKubernetes (Config.mk "" "") 0
          { envAllOk with getPodsResp := fun _ => kubeZero } false).snd,
        e.isProbeCheck = false)
    ∧ Event.deleteBusybox true
        ∈ (CheckKubernetes (Config.mk "" "") 0
          { envAllOk with getPodsResp := fun _ => kubeZero } false).snd :=
  ⟨(claim_c4 (Config.mk "" "") 0 { envAllOk with getPodsResp := fun _ => kubeZero } false
      (by decide) (by decide) (by decide) (by decide) (by decide)).1,
    (claim_c4 (Config.mk "" "") 0 { envAllOk with getPodsResp := fun _ => kubeZero } false
      (by decide) (by decide) (by decide) (by decide) (by decide)).2.1,
    ((claim_c4 (Config.mk "" "") 0 { envAllOk with getPodsResp := fun _ => kubeZero } false
      (by decide) (by decide) (by decide) (by decide) (by decide)).2.2 rfl).2.1⟩

/-- Claim C5: in a run that reaches the probe sequence, if the check-3
retry fails for some gathered pod IP, the check-3 attempt is still issued
for every gathered pod IP, check 7 still executes, and the run returns
the aggregate failure error. -/
theorem claim_c5 (cfg : Config) (now : Nat) (env : Env) (skip : Bool)
    (hk : precheckKubectl env = true)
    (hr : env.removeExistingResp.Success = true)
    (hp : checkPreconditions cfg env = true)
    (hd : (deployTestWorkloads env (nginxServiceName now)).fst = true)
    (hg : (gatherPhase env).ok = true)
    (ip0 : String) (hmem : ip0 ∈ (gatherPhase env).podIPs)
    (hfail : check3Pass env ip0 = false) :
    (∀ ip ∈ (gatherPhase env).podIPs,
      Event.check3Run ip ∈ (CheckKubernetes cfg now env skip).snd)
    ∧ Event.check7Run ∈ (CheckKubernetes cfg now env skip).snd
    ∧ (CheckKubernetes cfg now env skip).fst
        = Except.error "One or more required steps failed" := by
  refine ⟨?_, ?_, ?_⟩
  · intro ip hip
    exact checkKubernetes_probe_mem cfg now env skip hk hr hp hd hg _
      (List.mem_append_left _ (List.mem_append_left _ (List.mem_append_left _
        (List.mem_append_right _ (List.mem_map_of_mem Event.check3Run hip)))))
  · exact checkKubernetes_probe_mem cfg now env skip hk hr hp hd hg _
      (List.mem_append_right _
        (List.mem_cons_of_mem _ (List.mem_cons_self _ _)))
  · rw [checkKubernetes_result_probe cfg now env skip hk hr hp hd hg]
    have hall : (gatherPhase env).podIPs.all (check3Pass env) = false := by
      cases hv : (gatherPhase env).podIPs.all (check3Pass env) with
      | false => rfl
      | true =>
        have hc := List.all_eq_true.mp hv ip0 hmem
        rw [hfail] at hc
        simp at hc
    have hreq : requiredChecksPass env (gatherPhase env).podIPs = false := by
      simp [requiredChecksPass, hall]
    rw [hreq]
    simp

/-- Witness for claim C5: with three gathered pod IPs of which exactly
the middle one fails its check-3 retry, all three check-3 attempts and
check 7 appear in the trace and the run fails. -/
theorem claim_c5_witness :
    Event.check3Run "10.0.0.1"
        ∈ (CheckKubernetes (Config.mk "" "") 0
          { envAllOk with
            getPodsResp := fun _ => { kubeOk with podIPs := ["10.0.0.1", "10.0.0.2", "10.0.0.3"] }
            check3Resp := fun ip _ => if ip == "10.0.0.2" then kubeZero else kubeOk } false).snd
    ∧ Event.check3Run "10.0.0.3"
        ∈ (CheckKubernetes (Config.mk "" "") 0
          { envAllOk with
            getPodsResp := fun _ => { kubeOk with podIPs := ["10.0.0.1", "10.0.0.2", "10.0.0.3"] }
            check3Resp := fun ip _ => if ip == "10.0.0.2" then kubeZero else kubeOk } false).snd
    ∧ Event.check7Run
        ∈ (CheckKubernetes (Config.mk "" "") 0
          { envAllOk with
            getPodsResp := fun _ => { kubeOk with podIPs := ["10.0.0.1", "10.0.0.2", "10.0.0.3"] }
            check3Resp := fun ip _ => if ip == "10.0.0.2" then kubeZero else kubeOk } false).snd
    ∧ (CheckKubernetes (Config.mk "" "") 0
          { envAllOk with
            getPodsResp := fun _ => { kubeOk with podIPs := ["10.0.0.1", "10.0.0.2", "10.0.0.3"] }
            check3Resp := fun ip _ => if ip == "10.0.0.2" then kubeZero else kubeOk } false).fst
        = Except.error "One or more required steps failed" :=
  ⟨(claim_c5 (Config.mk "" "") 0
      { envAllOk with
        getPodsResp := fun _ => { kubeOk with podIPs := ["10.0.0.1", "10.0.0.2", "10.0.0.3"] }
        check3Resp := fun ip _ => if ip == "10.0.0.2" then kubeZero else kubeOk } false
      (by decide) (by decide) (by decide) (by decide) (by decide)
      "10.0.0.2" (by decide) (by decide)).1 "10.0.0.1" (by decide),
    (claim_c5 (Config.mk "" "") 0
      { envAllOk with
        getPodsResp := fun _ => { kubeOk with podIPs := ["10.0.0.1", "10.0.0.2", "10.0.0.3"] }
        check3Resp := fun ip _ => if ip == "10.0.0.2" then kubeZero else kubeOk } false
      (by decide) (by decide) (by decide) (by decide) (by decide)
      "10.0.0.2" (by decide) (by decide)).1 "10.0.0.3" (by decide),
    (claim_c5 (Config.mk "" "") 0
      { envAllOk with
        getPodsResp := fun _ => { kubeOk with podIPs := ["10.0.0.1", "10.0.0.2", "10.0.0.3"] }
        check3Resp := fun ip _ => if ip == "10.0.0.2" then kubeZero else kubeOk } false
      (by decide) (by decide) (by decide) (by decide) (by decide)
      "10.0.0.2" (by decide) (by decide)).2.1,
    (claim_c5 (Config.mk "" "") 0
      { envAllOk with
        getPodsResp := fun _ => { kubeOk with podIPs := ["10.0.0.1", "10.0.0.2", "10.0.0.3"] }
        check3Resp := fun ip _ => if ip == "10.0.0.2" then kubeZero else kubeOk } false
      (by decide) (by decide) (by decide) (by decide) (by decide)
      "10.0.0.2" (by decide) (by decide)).2.2⟩


set_option maxRecDepth 16384 in
/-- Counterexample to claim C3 as stated: a run whose readiness poll
times out (the probe-client deployment never reports a ready replica)
returns the deployment error immediately; no information-gathering
retrieval and no probe check is ever executed, so the workflow does not
proceed into those phases. -/
theorem claim_c3_counterexample :
    (waitForDeployments 1
        ({ envAllOk with bbPollResp := fun _ => kubeZero } : Env).nodesResp.nodeCount
        { envAllOk with bbPollResp := fun _ => kubeZero }).fst = false
    ∧ (CheckKubernetes (Config.mk "" "") 0
          { envAllOk with bbPollResp := fun _ => kubeZero } false).fst
        = Except.error "Failed to deploy test workloads"
    ∧ (∀ e ∈ (CheckKubernetes (Config.mk "" "") 0
          { envAllOk with bbPollResp := fun _ => kubeZero } false).snd,
        e.isProbeCheck = false ∧ e.isGather = false) := by
  refine ⟨by decide, by decide, by decide⟩

/-- Claim C3 (amended): when the creation requests are accepted but the
readiness poll times out, the workflow records the failure and aborts
with the deployment error, without entering the information-gathering or
probe phases; the deferred teardown still runs when not suppressed. -/
theorem claim_c3_amended (cfg : Config) (now : Nat) (env : Env) (skip : Bool)
    (hk : precheckKubectl env = true)
    (hr : env.removeExistingResp.Success = true)
    (hp : checkPreconditions cfg env = true)
    (hbb : env.runBusyboxResp.Success = true)
    (hng : env.runNginxResp.Success = true)
    (hex : env.exposeResp.Success = true)
    (htimeout : (waitForDeployments 1 env.nodesResp.nodeCount env).fst = false) :
    (CheckKubernetes cfg now env skip).fst = Except.error "Failed to deploy test workloads"
    ∧ (∀ e ∈ (CheckKubernetes cfg now env skip).snd,
        e.isProbeCheck = false ∧ e.isGather = false)
    ∧ (skip = false →
        Event.deleteService (nginxServiceName now) env.deleteServiceResp.Success
            ∈ (CheckKubernetes cfg now env skip).snd
        ∧ Event.deleteBusybox env.deleteBBResp.Success ∈ (CheckKubernetes cfg now env skip).snd
        ∧ Event.deleteNginx env.deleteNGResp.Success ∈ (CheckKubernetes cfg now env skip).snd) := by
  have hd : (deployTestWorkloads env (nginxServiceName now)).fst = false := by
    simp only [deployTestWorkloads, hbb, hng, hex, if_true]
    exact htimeout
  have htrace : (CheckKubernetes cfg now env skip).snd
      = Event.removeExistingCall :: (deployTestWorkloads env (nginxServiceName now)).snd
          ++ (if skip then [] else powerDown env (nginxServiceName now)) := by
    simp only [CheckKubernetes, runBody, hk, hr, hp, hd, if_true, Bool.false_eq_true, if_false]
  refine ⟨?_, ?_, ?_⟩
  · simp only [CheckKubernetes, runBody, hk, hr, hp, hd, if_true, Bool.false_eq_true, if_false]
  · intro e he
    rw [htrace] at he
    rcases List.mem_cons.mp he with rfl | he2
    · exact ⟨rfl, rfl⟩
    rcases List.mem_append.mp he2 with hdep | hpd
    · exact (deployTestWorkloads_events env (nginxServiceName now) e hdep).2
    · cases skip with
      | true => simp at hpd
      | false =>
        simp only [Bool.false_eq_true, if_false] at hpd
        exact (powerDown_events env (nginxServiceName now) e hpd).2
  · intro hskip
    subst hskip
    refine ⟨?_, ?_, ?_⟩ <;>
      apply checkKubernetes_teardown_mem cfg now env hk hr hp <;>
      simp [powerDown]

set_option maxRecDepth 16384 in
/-- Witness for claim C3 (amended): a run whose probe-client deployment
never becomes ready returns the deployment error and, with teardown not
suppressed, still issues the probe-client teardown request. -/
theorem claim_c3_witness :
    (CheckKubernetes (Config.mk "" "") 0
        { envAllOk with bbPollResp := fun _ => kubeZero } true).fst
      = Except.error "Failed to deploy test workloads"
    ∧ Event.deleteBusybox true
        ∈ (CheckKubernetes (Config.mk "" "") 0
          { envAllOk with bbPollResp := fun _ => kubeZero } false).snd :=
  ⟨(claim_c3_amended (Config.mk "" "") 0 { envAllOk with bbPollResp := fun _ => kubeZero } true
      (by decide) (by decide) (by decide) (by decide) (by decide) (by decide) (by decide)).1,
    ((claim_c3_amended (Config.mk "" "") 0 { envAllOk with bbPollResp := fun _ => kubeZero } false
      (by decide) (by decide) (by decide) (by decide) (by decide) (by decide) (by decide)).2.2
      rfl).2.1⟩

/-- Counterexample to claim C7 as stated: on a well-behaved cluster on
which a deployment with the probe-target name exists when the workflow
starts, the initial ignore-missing cleanup removes it, the preconditions
then pass, and the run issues creation requests (and even succeeds), so
the workflow does not abort and the number of creation calls is not
zero. -/
theorem claim_c7_counterexample :
    ngDeploymentName ∈ (Cluster.mk [ngDeploymentName] []).deployments
    ∧ (∃ e ∈ (CheckKubernetes (Config.mk "" "") 0
          (clusterEnv 0 (Cluster.mk [ngDeploymentName] [])) false).snd, e.isCreation = true)
    ∧ (CheckKubernetes (Config.mk "" "") 0
          (clusterEnv 0 (Cluster.mk [ngDeploymentName] [])) false).fst = Except.ok () := by
  refine ⟨by decide, by decide, by decide⟩

/-- Claim C7 (amended): if the initial ignore-missing cleanup fails, or
the probe-target deployment is still reported present when the
preconditions are checked, the workflow aborts with an error before
issuing any workload- or service-creation request: zero creation calls
occur on that run. -/
theorem claim_c7_amended (cfg : Config) (now : Nat) (env : Env) (skip : Bool)
    (h : env.removeExistingResp.Success = false ∨ env.ngPrecheckResp.Success = true) :
    (∃ msg, (CheckKubernetes cfg now env skip).fst = Except.error msg)
    ∧ ∀ e ∈ (CheckKubernetes cfg now env skip).snd, e.isCreation = false := by
  by_cases hk : precheckKubectl env = true
  · rcases h with hrem | hng
    · simp only [CheckKubernetes, hk, if_true, hrem, Bool.false_eq_true, if_false]
      refine ⟨⟨_, rfl⟩, ?_⟩
      intro e he
      simp only [List.mem_cons, List.not_mem_nil, or_false] at he
      subst he
      rfl
    · by_cases hrem : env.removeExistingResp.Success = true
      · have hpre : checkPreconditions cfg env = false := by
          simp [checkPreconditions, precheckDeployments, hng]
        simp only [CheckKubernetes, hk, hrem, if_true, hpre, Bool.false_eq_true, if_false]
        refine ⟨⟨_, rfl⟩, ?_⟩
        intro e he
        simp only [List.mem_cons, List.not_mem_nil, or_false] at he
        subst he
        rfl
      · have hrem' : env.removeExistingResp.Success = false := by simpa using hrem
        simp only [CheckKubernetes, hk, if_true, hrem', Bool.false_eq_true, if_false]
        refine ⟨⟨_, rfl⟩, ?_⟩
        intro e he
        simp only [List.mem_cons, List.not_mem_nil, or_false] at he
        subst he
        rfl
  · have hk' : precheckKubectl env = false := by simpa using hk
    simp only [CheckKubernetes, hk', Bool.false_eq_true, if_false]
    refine ⟨⟨_, rfl⟩, ?_⟩
    intro e he
    simp at he

/-- Witness for claim C7 (amended): a run whose precondition query still
reports the probe-target deployment present aborts with an error and
issues no creation request. -/
theorem claim_c7_witness :
    (∃ msg, (CheckKubernetes (Config.mk "" "") 0
        { envAllOk with ngPrecheckResp := kubeOk } true).fst = Except.error msg)
    ∧ ∀ e ∈ (CheckKubernetes (Config.mk "" "") 0
        { envAllOk with ngPrecheckResp := kubeOk } true).snd, e.isCreation = false :=
  claim_c7_amended (Config.mk "" "") 0 { envAllOk with ngPrecheckResp := kubeOk } true
    (Or.inr rfl)

end Kuberang
